import Mathlib

/-!
Formal model of a Selenium page-object test framework: the locator-strategy
resolver, config registry lookup, element action layer, driver provisioning
with its two-tier fallback, the driver fixture lifecycle and the logger
construction.  Python functions are embedded as pure Lean functions; the
browser, the filesystem and the config file are explicit environment
parameters; Python exceptions are the error side of Except.
-/

namespace SelFw

/-- Selenium locator strategies (selenium.webdriver.common.by.By). -/
inductive By where
  | xpath
  | id
  | name
  | cssSelector
  | className
  | linkText
  | partLinkText
deriving DecidableEq

/-- Exceptions the framework can raise.  unsupportedLocatorType and
unknownKey are the ValueError cases of Basepage.py; configKeyNotFound is
configparser's NoSectionError/NoOptionError; timeoutErr is selenium's
TimeoutException from an expired WebDriverWait; autoSetupFailed is any
exception from the automatic driver tier; unsupportedBrowser is the
ValueError of conftest.py for a browser outside chrome/firefox/edge;
driverUnavailable is the final RuntimeError of _create_driver. -/
inductive Err where
  | unsupportedLocatorType (locator : String)
  | configKeyNotFound (sect key : String)
  | timeoutErr
  | unknownKey (keyName : String)
  | autoSetupFailed (browserName : String)
  | unsupportedBrowser (browserName : String)
  | driverUnavailable (msg : String)
deriving DecidableEq

/-- Model of Python str.endswith: a suffix test on the character sequence. -/
def strEndsWith (s suf : String) : Bool :=
  suf.data.isSuffixOf s.data

/-- Model of Python str.upper on the ASCII names used here: uppercase each
character. -/
def pyUpper (s : String) : String :=
  String.mk (s.data.map Char.toUpper)

/-- Model of Python str.lower on the ASCII names used here: lowercase each
character. -/
def pyLower (s : String) : String :=
  String.mk (s.data.map Char.toLower)

instance {ε α : Type} [DecidableEq ε] [DecidableEq α] :
    DecidableEq (Except ε α) := fun x y =>
  match x, y with
  | .ok a, .ok b =>
      if h : a = b then isTrue (by rw [h])
      else isFalse (fun hh => h (Except.ok.inj hh))
  | .error a, .error b =>
      if h : a = b then isTrue (by rw [h])
      else isFalse (fun hh => h (Except.error.inj hh))
  | .ok _, .error _ => isFalse (fun hh => Except.noConfusion hh)
  | .error _, .ok _ => isFalse (fun hh => Except.noConfusion hh)

/-- WebActions._get_by_type (src/Pages/Basepage.py): dispatch on the trailing
suffix of the locator name, in the source's branch order; an unrecognized
suffix raises ValueError carrying the name. -/
def get_by_type (locator : String) : Except Err By :=
  if strEndsWith locator "_XPATH" then .ok .xpath
  else if strEndsWith locator "_ID" then .ok .id
  else if strEndsWith locator "_NAME" then .ok .name
  else if strEndsWith locator "_CSS" then .ok .cssSelector
  else if strEndsWith locator "_CLASS" then .ok .className
  else if strEndsWith locator "_LINKTEXT" then .ok .linkText
  else if strEndsWith locator "_PARTIALLINKTEXT" then .ok .partLinkText
  else .error (.unsupportedLocatorType locator)

/-- Characterization of strEndsWith by the list suffix relation. -/
theorem strEndsWith_iff {s suf : String} :
    strEndsWith s suf = true ↔ suf.data <:+ s.data := by
  simp [strEndsWith]

/-- Two pattern strings of which neither is a suffix of the other can never
both be suffixes of the same name. -/
theorem ends_excl (a b : String) {s : String}
    (hna : ¬ a.data <:+ b.data) (hnb : ¬ b.data <:+ a.data)
    (h : strEndsWith s a = true) : strEndsWith s b = false := by
  cases hb : strEndsWith s b with
  | false => rfl
  | true =>
      rw [strEndsWith_iff] at h hb
      rcases List.suffix_or_suffix_of_suffix h hb with hh | hh
      · exact absurd hh hna
      · exact absurd hh hnb

/-- C1: every locator name ending in one of the seven recognized suffixes
resolves to the single correct strategy — in particular a name ending in
_PARTIALLINKTEXT resolves to the partial-link-text strategy and never the
link-text strategy — and a name ending in no recognized suffix fails with
the unsupported-locator-type error carrying that name. -/
theorem C1_locator_resolver (s : String) :
    (strEndsWith s "_XPATH" = true → get_by_type s = .ok .xpath) ∧
    (strEndsWith s "_ID" = true → get_by_type s = .ok .id) ∧
    (strEndsWith s "_NAME" = true → get_by_type s = .ok .name) ∧
    (strEndsWith s "_CSS" = true → get_by_type s = .ok .cssSelector) ∧
    (strEndsWith s "_CLASS" = true → get_by_type s = .ok .className) ∧
    (strEndsWith s "_LINKTEXT" = true → get_by_type s = .ok .linkText) ∧
    (strEndsWith s "_PARTIALLINKTEXT" = true →
        get_by_type s = .ok .partLinkText ∧ get_by_type s ≠ .ok .linkText) ∧
    (strEndsWith s "_XPATH" = false → strEndsWith s "_ID" = false →
      strEndsWith s "_NAME" = false → strEndsWith s "_CSS" = false →
      strEndsWith s "_CLASS" = false → strEndsWith s "_LINKTEXT" = false →
      strEndsWith s "_PARTIALLINKTEXT" = false →
        get_by_type s = .error (.unsupportedLocatorType s)) := by
  refine ⟨?_, ?_, ?_, ?_, ?_, ?_, ?_, ?_⟩
  · intro h
    simp [get_by_type, h]
  · intro h
    have h1 := ends_excl "_ID" "_XPATH" (by decide) (by decide) h
    simp [get_by_type, h, h1]
  · intro h
    have h1 := ends_excl "_NAME" "_XPATH" (by decide) (by decide) h
    have h2 := ends_excl "_NAME" "_ID" (by decide) (by decide) h
    simp [get_by_type, h, h1, h2]
  · intro h
    have h1 := ends_excl "_CSS" "_XPATH" (by decide) (by decide) h
    have h2 := ends_excl "_CSS" "_ID" (by decide) (by decide) h
    have h3 := ends_excl "_CSS" "_NAME" (by decide) (by decide) h
    simp [get_by_type, h, h1, h2, h3]
  · intro h
    have h1 := ends_excl "_CLASS" "_XPATH" (by decide) (by decide) h
    have h2 := ends_excl "_CLASS" "_ID" (by decide) (by decide) h
    have h3 := ends_excl "_CLASS" "_NAME" (by decide) (by decide) h
    have h4 := ends_excl "_CLASS" "_CSS" (by decide) (by decide) h
    simp [get_by_type, h, h1, h2, h3, h4]
  · intro h
    have h1 := ends_excl "_LINKTEXT" "_XPATH" (by decide) (by decide) h
    have h2 := ends_excl "_LINKTEXT" "_ID" (by decide) (by decide) h
    have h3 := ends_excl "_LINKTEXT" "_NAME" (by decide) (by decide) h
    have h4 := ends_excl "_LINKTEXT" "_CSS" (by decide) (by decide) h
    have h5 := ends_excl "_LINKTEXT" "_CLASS" (by decide) (by decide) h
    simp [get_by_type, h, h1, h2, h3, h4, h5]
  · intro h
    have h1 := ends_excl "_PARTIALLINKTEXT" "_XPATH" (by decide) (by decide) h
    have h2 := ends_excl "_PARTIALLINKTEXT" "_ID" (by decide) (by decide) h
    have h3 := ends_excl "_PARTIALLINKTEXT" "_NAME" (by decide) (by decide) h
    have h4 := ends_excl "_PARTIALLINKTEXT" "_CSS" (by decide) (by decide) h
    have h5 := ends_excl "_PARTIALLINKTEXT" "_CLASS" (by decide) (by decide) h
    have h6 := ends_excl "_PARTIALLINKTEXT" "_LINKTEXT" (by decide) (by decide) h
    simp [get_by_type, h, h1, h2, h3, h4, h5, h6]
  · intro h1 h2 h3 h4 h5 h6 h7
    simp [get_by_type, h1, h2, h3, h4, h5, h6, h7]

/-- C1 witness: a concrete partial-link-text locator name resolves to the
partial-link-text strategy and not to the link-text strategy. -/
theorem C1_locator_resolver_witness :
    get_by_type "forgot_password_PARTIALLINKTEXT" = .ok .partLinkText ∧
    get_by_type "forgot_password_PARTIALLINKTEXT" ≠ .ok .linkText :=
  (C1_locator_resolver "forgot_password_PARTIALLINKTEXT").2.2.2.2.2.2.1 (by decide)

/-- Contents of config.ini at one point in time: section and key to the
stored string, or none when the section or key is absent. -/
def ConfigStore := String → String → Option String

/-- ConfigReader.readconfig (src/Utilities/ConfigReader.py): builds a fresh
ConfigParser and re-reads config.ini on every call, so the store passed in
is the persistent file contents at call time; a missing section or key makes
config.get raise (NoSectionError/NoOptionError). -/
def readconfig (store : ConfigStore) (sect key : String) : Except Err String :=
  match store sect key with
  | some v => .ok v
  | none => .error (.configKeyNotFound sect key)

/-- One step of the registry's life: either the file is modified externally
(its contents replaced), or readconfig is called. -/
inductive RegistryOp where
  | extModify (newStore : ConfigStore)
  | lookup (sect key : String)

/-- Runs a sequence of registry operations against the persistent file,
collecting the result of every lookup.  Because readconfig re-reads the file
on each call, a lookup always consults the store as most recently written. -/
def runRegistry : ConfigStore → List RegistryOp → List (Except Err String)
  | _, [] => []
  | _, RegistryOp.extModify newStore :: ops => runRegistry newStore ops
  | st, RegistryOp.lookup sect key :: ops =>
      readconfig st sect key :: runRegistry st ops

/-- Environment a WebActions instance runs against: the config file contents
plus the browser page, abstracted as which (strategy, selector) pairs yield a
clickable element (its handle) or become visible within a given timeout. -/
structure PageEnv where
  store : ConfigStore
  clickableWithin : By → String → Nat → Option Nat
  visibleWithin : By → String → Nat → Bool

/-- WebActions.DEFAULT_TIMEOUT from Basepage.py. -/
def DEFAULT_TIMEOUT : Nat := 10

/-- WebActions._get_element: resolve the strategy, read the selector from
config, then wait until clickable; each failure (bad suffix, missing key,
expired wait) propagates as the corresponding exception. -/
def get_element (env : PageEnv) (locator : String) (timeout : Nat) :
    Except Err Nat :=
  match get_by_type locator with
  | .error e => .error e
  | .ok byType =>
    match readconfig env.store "locators" locator with
    | .error e => .error e
    | .ok locatorValue =>
      match env.clickableWithin byType locatorValue timeout with
      | some el => .ok el
      | none => .error Err.timeoutErr

/-- WebActions.click: acquires the element via _get_element and clicks it;
any exception from acquisition propagates to the caller. -/
def click (env : PageEnv) (locator : String) : Except Err Unit :=
  match get_element env locator DEFAULT_TIMEOUT with
  | .ok _el => .ok ()
  | .error e => .error e

/-- Body of the try block of WebActions.is_displayed: resolve the strategy,
read the selector, wait for visibility within the timeout. -/
def is_displayed_body (env : PageEnv) (locator : String) (timeout : Nat) :
    Except Err Unit :=
  match get_by_type locator with
  | .error e => .error e
  | .ok byType =>
    match readconfig env.store "locators" locator with
    | .error e => .error e
    | .ok locatorValue =>
      if env.visibleWithin byType locatorValue timeout then .ok ()
      else .error Err.timeoutErr

/-- WebActions.is_displayed: the try body wrapped in a bare
except-Exception handler that turns every exception into the result False;
success of the wait yields True.  The function itself never raises. -/
def is_displayed (env : PageEnv) (locator : String) (timeout : Nat) :
    Except Err Bool :=
  match is_displayed_body env locator timeout with
  | .ok _ => .ok true
  | .error _ => .ok false

/-- Attribute table of selenium.webdriver.common.keys.Keys: symbolic key
names and their special-key code points. -/
def KEYS_TABLE : List (String × Char) :=
  [("NULL", Char.ofNat 0xE000), ("CANCEL", Char.ofNat 0xE001),
   ("HELP", Char.ofNat 0xE002), ("BACKSPACE", Char.ofNat 0xE003),
   ("BACK_SPACE", Char.ofNat 0xE003), ("TAB", Char.ofNat 0xE004),
   ("CLEAR", Char.ofNat 0xE005), ("RETURN", Char.ofNat 0xE006),
   ("ENTER", Char.ofNat 0xE007), ("SHIFT", Char.ofNat 0xE008),
   ("LEFT_SHIFT", Char.ofNat 0xE008), ("CONTROL", Char.ofNat 0xE009),
   ("LEFT_CONTROL", Char.ofNat 0xE009), ("ALT", Char.ofNat 0xE00A),
   ("LEFT_ALT", Char.ofNat 0xE00A), ("PAUSE", Char.ofNat 0xE00B),
   ("ESCAPE", Char.ofNat 0xE00C), ("SPACE", Char.ofNat 0xE00D),
   ("PAGE_UP", Char.ofNat 0xE00E), ("PAGE_DOWN", Char.ofNat 0xE00F),
   ("END", Char.ofNat 0xE010), ("HOME", Char.ofNat 0xE011),
   ("LEFT", Char.ofNat 0xE012), ("ARROW_LEFT", Char.ofNat 0xE012),
   ("UP", Char.ofNat 0xE013), ("ARROW_UP", Char.ofNat 0xE013),
   ("RIGHT", Char.ofNat 0xE014), ("ARROW_RIGHT", Char.ofNat 0xE014),
   ("DOWN", Char.ofNat 0xE015), ("ARROW_DOWN", Char.ofNat 0xE015),
   ("INSERT", Char.ofNat 0xE016), ("DELETE", Char.ofNat 0xE017),
   ("SEMICOLON", Char.ofNat 0xE018), ("EQUALS", Char.ofNat 0xE019),
   ("NUMPAD0", Char.ofNat 0xE01A), ("NUMPAD1", Char.ofNat 0xE01B),
   ("NUMPAD2", Char.ofNat 0xE01C), ("NUMPAD3", Char.ofNat 0xE01D),
   ("NUMPAD4", Char.ofNat 0xE01E), ("NUMPAD5", Char.ofNat 0xE01F),
   ("NUMPAD6", Char.ofNat 0xE020), ("NUMPAD7", Char.ofNat 0xE021),
   ("NUMPAD8", Char.ofNat 0xE022), ("NUMPAD9", Char.ofNat 0xE023),
   ("MULTIPLY", Char.ofNat 0xE024), ("ADD", Char.ofNat 0xE025),
   ("SEPARATOR", Char.ofNat 0xE026), ("SUBTRACT", Char.ofNat 0xE027),
   ("DECIMAL", Char.ofNat 0xE028), ("DIVIDE", Char.ofNat 0xE029),
   ("F1", Char.ofNat 0xE031), ("F2", Char.ofNat 0xE032),
   ("F3", Char.ofNat 0xE033), ("F4", Char.ofNat 0xE034),
   ("F5", Char.ofNat 0xE035), ("F6", Char.ofNat 0xE036),
   ("F7", Char.ofNat 0xE037), ("F8", Char.ofNat 0xE038),
   ("F9", Char.ofNat 0xE039), ("F10", Char.ofNat 0xE03A),
   ("F11", Char.ofNat 0xE03B), ("F12", Char.ofNat 0xE03C),
   ("META", Char.ofNat 0xE03D), ("COMMAND", Char.ofNat 0xE03D),
   ("ZENKAKU_HANKAKU", Char.ofNat 0xE040)]

/-- Model of getattr(Keys, attrName, None): look the attribute name up in
the Keys class table. -/
def keysAttr (attrName : String) : Option Char :=
  (KEYS_TABLE.find? (fun p => p.1 == attrName)).map Prod.snd

/-- WebActions.press_key: uppercases the symbolic key name, resolves it via
getattr on Keys, raises ValueError when unresolved (before any element is
touched), otherwise acquires the element and sends the key code.  The result
carries the character sequence sent to the element. -/
def press_key (env : PageEnv) (locator keyName : String) :
    Except Err (List Char) :=
  match keysAttr (pyUpper keyName) with
  | none => .error (.unknownKey keyName)
  | some k =>
      match get_element env locator DEFAULT_TIMEOUT with
      | .ok _el => .ok [k]
      | .error e => .error e

/-- Environment with an empty config file, no clickable and no visible
elements. -/
def emptyPageEnv : PageEnv :=
  { store := fun _ _ => none,
    clickableWithin := fun _ _ _ => none,
    visibleWithin := fun _ _ _ => false }

/-- Config file holding one locator entry and a default-browser entry. -/
def sampleStore : ConfigStore := fun sect key =>
  if sect = "locators" ∧ key = "login_button_ID" then some "login-button"
  else if sect = "browser" ∧ key = "default_browser" then some "Firefox"
  else none

/-- Same config file after an external edit to the locator entry. -/
def sampleStore2 : ConfigStore := fun sect key =>
  if sect = "locators" ∧ key = "login_button_ID" then some "new-login-button"
  else none

/-- Page where every selector is clickable and visible at once. -/
def samplePageEnv : PageEnv :=
  { store := sampleStore,
    clickableWithin := fun _ _ _ => some 0,
    visibleWithin := fun _ _ _ => true }

/-- C2 counterexample: is_displayed on a name with no recognized suffix
returns the result false instead of letting the unsupported-locator-type
error propagate — the bare except-Exception handler converts it too, not
only the wait timeout. -/
theorem C2_is_displayed_counterexample :
    is_displayed emptyPageEnv "LOGIN_BUTTON" DEFAULT_TIMEOUT = .ok false ∧
    is_displayed emptyPageEnv "LOGIN_BUTTON" DEFAULT_TIMEOUT ≠
      .error (.unsupportedLocatorType "LOGIN_BUTTON") := by
  constructor
  · decide
  · decide

/-- C2 (amended): is_displayed yields false when visibility is not achieved
within the timeout and true when it is, and it is the Action Layer's sole
exception-to-result conversion; but it converts every exception arising
inside it — an unrecognized locator suffix or a missing registry key as much
as the wait timeout — into false, while other operations such as click
propagate acquisition errors unmodified. -/
theorem C2_is_displayed_amended (env : PageEnv) (loc : String) (t : Nat)
    (b : By) (v : String) (e : Err) :
    (get_by_type loc = .ok b → readconfig env.store "locators" loc = .ok v →
        is_displayed env loc t = .ok (env.visibleWithin b v t)) ∧
    (get_by_type loc = .error e → is_displayed env loc t = .ok false) ∧
    (get_by_type loc = .ok b → readconfig env.store "locators" loc = .error e →
        is_displayed env loc t = .ok false) ∧
    (get_by_type loc = .error e → click env loc = .error e) := by
  refine ⟨?_, ?_, ?_, ?_⟩
  · intro hb hv
    cases hvis : env.visibleWithin b v t with
    | true => simp [is_displayed, is_displayed_body, hb, hv, hvis]
    | false => simp [is_displayed, is_displayed_body, hb, hv, hvis]
  · intro hb
    simp [is_displayed, is_displayed_body, hb]
  · intro hb hv
    simp [is_displayed, is_displayed_body, hb, hv]
  · intro hb
    simp [click, get_element, hb]

/-- C2 amended witness: with the sample page, a well-formed locator that is
visible yields true, and click on a malformed name propagates the
unsupported-locator-type error. -/
theorem C2_is_displayed_amended_witness :
    is_displayed samplePageEnv "login_button_ID" DEFAULT_TIMEOUT = .ok true ∧
    click samplePageEnv "LOGIN_BUTTON" =
      .error (.unsupportedLocatorType "LOGIN_BUTTON") :=
  ⟨(C2_is_displayed_amended samplePageEnv "login_button_ID" DEFAULT_TIMEOUT
      By.id "login-button" Err.timeoutErr).1 (by decide) (by decide),
   (C2_is_displayed_amended samplePageEnv "LOGIN_BUTTON" DEFAULT_TIMEOUT
      By.id "login-button" (Err.unsupportedLocatorType "LOGIN_BUTTON")).2.2.2
      (by decide)⟩

/-- C4: readconfig consults the persistent store as it is at call time, so a
lookup returns the currently stored string even when the store was modified
externally between two calls on the same (section, key) pair. -/
theorem C4_registry_always_fresh (st st2 : ConfigStore) (sect key v v2 : String)
    (h : st sect key = some v) (h2 : st2 sect key = some v2) :
    runRegistry st
      [RegistryOp.lookup sect key, RegistryOp.extModify st2,
       RegistryOp.lookup sect key] = [Except.ok v, Except.ok v2] := by
  simp [runRegistry, readconfig, h, h2]

/-- C4 witness: the sample store, edited externally between two lookups of
the same key, yields the old string first and the new string second. -/
theorem C4_registry_always_fresh_witness :
    runRegistry sampleStore
      [RegistryOp.lookup "locators" "login_button_ID",
       RegistryOp.extModify sampleStore2,
       RegistryOp.lookup "locators" "login_button_ID"] =
      [Except.ok "login-button", Except.ok "new-login-button"] :=
  C4_registry_always_fresh sampleStore sampleStore2 "locators"
    "login_button_ID" "login-button" "new-login-button" (by decide) (by decide)

/-- C5: a (section, key) pair absent from the store makes readconfig fail
with the config-key-not-found error, and a caller such as _get_element
passes that exact error on unmodified. -/
theorem C5_config_missing_propagates (env : PageEnv) (loc : String) (b : By)
    (t : Nat) (hb : get_by_type loc = .ok b)
    (h : env.store "locators" loc = none) :
    readconfig env.store "locators" loc =
      .error (.configKeyNotFound "locators" loc) ∧
    get_element env loc t = .error (.configKeyNotFound "locators" loc) := by
  constructor
  · simp [readconfig, h]
  · simp [get_element, readconfig, hb, h]

/-- C5 witness: a locator key absent from the empty store fails with the
config-key-not-found error both at readconfig and through _get_element. -/
theorem C5_config_missing_propagates_witness :
    readconfig emptyPageEnv.store "locators" "user_name_ID" =
      .error (.configKeyNotFound "locators" "user_name_ID") ∧
    get_element emptyPageEnv "user_name_ID" DEFAULT_TIMEOUT =
      .error (.configKeyNotFound "locators" "user_name_ID") :=
  C5_config_missing_propagates emptyPageEnv "user_name_ID" By.id
    DEFAULT_TIMEOUT (by decide) (by decide)

/-- C6: press_key resolves its symbolic key name case-insensitively — every
casing of enter, tab and escape maps to the matching special-key code, which
is what gets sent to the acquired element — and a name the Keys table does
not resolve fails with the unknown-key error, sending nothing. -/
theorem C6_press_key (env : PageEnv) (loc s : String) (el : Nat) :
    (get_element env loc DEFAULT_TIMEOUT = .ok el → pyUpper s = "ENTER" →
        press_key env loc s = .ok [Char.ofNat 0xE007]) ∧
    (get_element env loc DEFAULT_TIMEOUT = .ok el → pyUpper s = "TAB" →
        press_key env loc s = .ok [Char.ofNat 0xE004]) ∧
    (get_element env loc DEFAULT_TIMEOUT = .ok el → pyUpper s = "ESCAPE" →
        press_key env loc s = .ok [Char.ofNat 0xE00C]) ∧
    (keysAttr (pyUpper s) = none →
        press_key env loc s = .error (.unknownKey s)) := by
  refine ⟨?_, ?_, ?_, ?_⟩
  · intro hel hs
    have hk : keysAttr (pyUpper s) = some (Char.ofNat 0xE007) := by
      rw [hs]; decide
    simp [press_key, hk, hel]
  · intro hel hs
    have hk : keysAttr (pyUpper s) = some (Char.ofNat 0xE004) := by
      rw [hs]; decide
    simp [press_key, hk, hel]
  · intro hel hs
    have hk : keysAttr (pyUpper s) = some (Char.ofNat 0xE00C) := by
      rw [hs]; decide
    simp [press_key, hk, hel]
  · intro hk
    simp [press_key, hk]

/-- C6 witness: a lower-case enter resolves to the enter key code sent to
the element, and an unrecognized name fails with the unknown-key error. -/
theorem C6_press_key_witness :
    press_key samplePageEnv "login_button_ID" "enter" =
      .ok [Char.ofNat 0xE007] ∧
    press_key samplePageEnv "login_button_ID" "bogus" =
      .error (.unknownKey "bogus") :=
  ⟨(C6_press_key samplePageEnv "login_button_ID" "enter" 0).1
      (by decide) (by decide),
   (C6_press_key samplePageEnv "login_button_ID" "bogus" 0).2.2.2 (by decide)⟩

/-- A provisioned browser session: which browser, whether headless, the
explicit driver binary it is bound to (none when auto-resolved), whether the
window was maximized, and the launch options it was constructed with. -/
structure Session where
  browserName : String
  headless : Bool
  execPath : Option String
  maximized : Bool
  opts : List String
deriving DecidableEq

/-- The _MANUAL_DRIVER_NAMES dict of conftest.py (.get semantics). -/
def MANUAL_DRIVER_NAMES (browserName : String) : Option String :=
  if browserName = "chrome" then some "chromedriver"
  else if browserName = "firefox" then some "geckodriver"
  else if browserName = "edge" then some "msedgedriver"
  else none

/-- Conventional path of a manual driver binary under the drivers/
directory. -/
def driverPathFor (binary : String) : String :=
  "drivers/" ++ binary

/-- _find_manual_driver (conftest.py): the conventional per-browser path
when the file exists there, otherwise none (also none for a browser outside
the dict). -/
def find_manual_driver (isFile : String → Bool) (browserName : String) :
    Option String :=
  match MANUAL_DRIVER_NAMES browserName with
  | none => none
  | some binary =>
      if isFile (driverPathFor binary) then some (driverPathFor binary)
      else none

/-- Headless launch arguments of the chrome branch of conftest.py, in
source order. -/
def chromeHeadlessOpts : List String :=
  ["--headless=new", "--no-sandbox", "--disable-dev-shm-usage",
   "--disable-gpu", "--window-size=1920,1080"]

/-- Headless launch arguments of the firefox branch of conftest.py. -/
def firefoxHeadlessOpts : List String :=
  ["--headless", "--width=1920", "--height=1080"]

/-- Headless launch arguments of the edge branch of conftest.py. -/
def edgeHeadlessOpts : List String :=
  ["--headless=new", "--no-sandbox", "--disable-dev-shm-usage",
   "--disable-gpu", "--window-size=1920,1080"]

/-- Environment of driver provisioning: whether the automation library's
automatic driver resolution succeeds, and which files exist on disk. -/
structure DriverEnv where
  autoOk : Bool
  isFile : String → Bool

/-- _create_driver_auto (conftest.py): per-browser option construction and
launch through selenium's automatic driver manager; the launch itself is the
external step that may raise, and an unrecognized browser name raises
ValueError. -/
def create_driver_auto (env : DriverEnv) (browserName : String)
    (headless : Bool) : Except Err Session :=
  if browserName = "chrome" then
    if env.autoOk then
      .ok { browserName := browserName, headless := headless,
            execPath := none, maximized := false,
            opts := if headless then chromeHeadlessOpts else [] }
    else .error (.autoSetupFailed browserName)
  else if browserName = "firefox" then
    if env.autoOk then
      .ok { browserName := browserName, headless := headless,
            execPath := none, maximized := false,
            opts := if headless then firefoxHeadlessOpts else [] }
    else .error (.autoSetupFailed browserName)
  else if browserName = "edge" then
    if env.autoOk then
      .ok { browserName := browserName, headless := headless,
            execPath := none, maximized := false,
            opts := if headless then edgeHeadlessOpts else [] }
    else .error (.autoSetupFailed browserName)
  else .error (.unsupportedBrowser browserName)

/-- _create_driver_with_manual_path (conftest.py): same per-browser options,
but the service is bound to the given driver binary path; an unrecognized
browser name raises ValueError. -/
def create_driver_with_manual_path (browserName driverPath : String)
    (headless : Bool) : Except Err Session :=
  if browserName = "chrome" then
    .ok { browserName := browserName, headless := headless,
          execPath := some driverPath, maximized := false,
          opts := if headless then chromeHeadlessOpts else [] }
  else if browserName = "firefox" then
    .ok { browserName := browserName, headless := headless,
          execPath := some driverPath, maximized := false,
          opts := if headless then firefoxHeadlessOpts else [] }
  else if browserName = "edge" then
    .ok { browserName := browserName, headless := headless,
          execPath := some driverPath, maximized := false,
          opts := if headless then edgeHeadlessOpts else [] }
  else .error (.unsupportedBrowser browserName)

/-- Message of the final RuntimeError of _create_driver. -/
def driverUnavailableMsg (browserName : String) : String :=
  "Could not create a '" ++ browserName ++ "' driver.\n" ++
  "  - Auto driver setup failed (see above).\n" ++
  "  - No manual driver found at: " ++
  driverPathFor ((MANUAL_DRIVER_NAMES browserName).getD "?") ++ "\n" ++
  "Place the driver binary in the drivers/ directory and retry."

/-- The maximize-window step of _create_driver, performed in both tiers on
success and skipped when headless. -/
def maximizeUnlessHeadless (headless : Bool) (d : Session) : Session :=
  if headless then d else { d with maximized := true }

/-- _create_driver (conftest.py): try the automatic tier; on any exception
fall back to a manual binary under drivers/ when one exists; otherwise raise
the RuntimeError naming the browser, the auto failure and the expected
manual path. -/
def create_driver (env : DriverEnv) (browserName : String) (headless : Bool) :
    Except Err Session :=
  match create_driver_auto env browserName headless with
  | .ok d => .ok (maximizeUnlessHeadless headless d)
  | .error _ =>
    match find_manual_driver env.isFile browserName with
    | some manualPath =>
        match create_driver_with_manual_path browserName manualPath headless with
        | .ok d => .ok (maximizeUnlessHeadless headless d)
        | .error e => .error e
    | none => .error (.driverUnavailable (driverUnavailableMsg browserName))

/-- Provisioning environment where the automatic tier fails and only a
manual chromedriver binary is on disk. -/
def envManualChrome : DriverEnv :=
  { autoOk := false, isFile := fun q => q == "drivers/chromedriver" }

/-- Provisioning environment where the automatic tier fails and no file
exists. -/
def envNothing : DriverEnv :=
  { autoOk := false, isFile := fun _ => false }

/-- Provisioning environment where the automatic tier succeeds. -/
def envAutoOk : DriverEnv :=
  { autoOk := true, isFile := fun _ => false }

/-- C3: when the automatic tier raises and a manual binary exists at the
conventional per-browser path, provisioning succeeds with the session bound
to that binary path; when the automatic tier raises and no such file exists,
provisioning fails with the driver-unavailable error whose message names the
browser, reports the auto failure, and states the expected manual path. -/
theorem C3_driver_two_tier (env : DriverEnv) (b p : String) (headless : Bool)
    (e : Err) (hAuto : create_driver_auto env b headless = .error e) :
    (find_manual_driver env.isFile b = some p →
        (create_driver env b headless).toOption.map Session.execPath =
          some (some p)) ∧
    (find_manual_driver env.isFile b = none →
        create_driver env b headless = .error (.driverUnavailable
          ("Could not create a '" ++ b ++ "' driver.\n" ++
           "  - Auto driver setup failed (see above).\n" ++
           "  - No manual driver found at: " ++
           driverPathFor ((MANUAL_DRIVER_NAMES b).getD "?") ++ "\n" ++
           "Place the driver binary in the drivers/ directory and retry."))) := by
  constructor
  · intro hfind
    by_cases hb : b = "chrome"
    · subst hb
      simp only [create_driver, hAuto, hfind]
      cases headless <;>
        simp [create_driver_with_manual_path, maximizeUnlessHeadless,
          Except.toOption]
    · by_cases hb2 : b = "firefox"
      · subst hb2
        simp only [create_driver, hAuto, hfind]
        cases headless <;>
          simp [create_driver_with_manual_path, maximizeUnlessHeadless,
            Except.toOption]
      · by_cases hb3 : b = "edge"
        · subst hb3
          simp only [create_driver, hAuto, hfind]
          cases headless <;>
            simp [create_driver_with_manual_path, maximizeUnlessHeadless,
              Except.toOption]
        · exfalso
          simp [find_manual_driver, MANUAL_DRIVER_NAMES, hb, hb2, hb3]
            at hfind
  · intro hfind
    simp only [create_driver, hAuto, hfind, driverUnavailableMsg]

/-- C3 witness: with auto provisioning failing, a chromedriver binary on
disk yields a session bound to it, and a missing geckodriver yields the
driver-unavailable error with the full message for firefox. -/
theorem C3_driver_two_tier_witness :
    (create_driver envManualChrome "chrome" false).toOption.map
      Session.execPath = some (some "drivers/chromedriver") ∧
    create_driver envNothing "firefox" false = .error (.driverUnavailable
      ("Could not create a '" ++ "firefox" ++ "' driver.\n" ++
       "  - Auto driver setup failed (see above).\n" ++
       "  - No manual driver found at: " ++
       driverPathFor ((MANUAL_DRIVER_NAMES "firefox").getD "?") ++ "\n" ++
       "Place the driver binary in the drivers/ directory and retry.")) :=
  ⟨(C3_driver_two_tier envManualChrome "chrome" "drivers/chromedriver" false
      (.autoSetupFailed "chrome") (by decide)).1 (by decide),
   (C3_driver_two_tier envNothing "firefox" "" false
      (.autoSetupFailed "firefox") (by decide)).2 (by decide)⟩

/-- C7 counterexample: with the automatic tier available, the firefox
headless launch options contain neither the disable-gpu nor the
disable-sandbox argument, although the chrome ones contain both — the
headless argument set is not uniform across the supported browsers. -/
theorem C7_headless_counterexample :
    create_driver_auto envAutoOk "firefox" true =
      .ok { browserName := "firefox", headless := true, execPath := none,
            maximized := false, opts := firefoxHeadlessOpts } ∧
    firefoxHeadlessOpts.contains "--disable-gpu" = false ∧
    firefoxHeadlessOpts.contains "--no-sandbox" = false ∧
    chromeHeadlessOpts.contains "--disable-gpu" = true ∧
    chromeHeadlessOpts.contains "--no-sandbox" = true := by
  refine ⟨by decide, by decide, by decide, by decide, by decide⟩

/-- C7 (amended): both provisioning tiers construct identical launch options
for every browser name; when headless is requested, chrome and edge receive
the new-headless, no-sandbox, disable-dev-shm, disable-gpu and fixed
window-size arguments while firefox receives only the headless flag plus a
fixed width and height; and the post-launch maximization is performed
exactly when headless is not requested. -/
theorem C7_headless_opts_amended (env : DriverEnv) (b p : String)
    (headless : Bool) (hAuto : env.autoOk = true) :
    (create_driver_auto env b headless).map Session.opts =
      (create_driver_with_manual_path b p headless).map Session.opts ∧
    (create_driver_auto env "chrome" true).map Session.opts =
      .ok chromeHeadlessOpts ∧
    (create_driver_auto env "firefox" true).map Session.opts =
      .ok firefoxHeadlessOpts ∧
    (create_driver_auto env "edge" true).map Session.opts =
      .ok edgeHeadlessOpts ∧
    chromeHeadlessOpts =
      ["--headless=new", "--no-sandbox", "--disable-dev-shm-usage",
       "--disable-gpu", "--window-size=1920,1080"] ∧
    edgeHeadlessOpts = chromeHeadlessOpts ∧
    firefoxHeadlessOpts = ["--headless", "--width=1920", "--height=1080"] ∧
    (create_driver env b headless).toOption.map Session.maximized =
      (create_driver env b headless).toOption.map (fun _ => !headless) := by
  refine ⟨?_, ?_, ?_, ?_, by decide, by decide, by decide, ?_⟩
  · by_cases hb : b = "chrome"
    · subst hb
      simp [create_driver_auto, create_driver_with_manual_path, hAuto,
        Except.map]
    · by_cases hb2 : b = "firefox"
      · subst hb2
        simp [create_driver_auto, create_driver_with_manual_path, hAuto,
          Except.map]
      · by_cases hb3 : b = "edge"
        · subst hb3
          simp [create_driver_auto, create_driver_with_manual_path, hAuto,
            Except.map]
        · simp [create_driver_auto, create_driver_with_manual_path, hAuto,
            hb, hb2, hb3, Except.map]
  · simp [create_driver_auto, hAuto, Except.map]
  · simp [create_driver_auto, hAuto, Except.map]
  · simp [create_driver_auto, hAuto, Except.map]
  · by_cases hb : b = "chrome"
    · subst hb
      cases headless <;>
        simp [create_driver, create_driver_auto, hAuto,
          maximizeUnlessHeadless, Except.toOption]
    · by_cases hb2 : b = "firefox"
      · subst hb2
        cases headless <;>
          simp [create_driver, create_driver_auto, hAuto,
            maximizeUnlessHeadless, Except.toOption]
      · by_cases hb3 : b = "edge"
        · subst hb3
          cases headless <;>
            simp [create_driver, create_driver_auto, hAuto,
              maximizeUnlessHeadless, Except.toOption]
        · simp [create_driver, create_driver_auto, hAuto, hb, hb2, hb3,
            find_manual_driver, MANUAL_DRIVER_NAMES, Except.toOption]

/-- C7 amended witness: for chrome with the automatic tier available, the
two tiers construct the same launch options. -/
theorem C7_headless_opts_amended_witness :
    (create_driver_auto envAutoOk "chrome" false).map Session.opts =
      (create_driver_with_manual_path "chrome" "drivers/chromedriver"
        false).map Session.opts :=
  (C7_headless_opts_amended envAutoOk "chrome" "drivers/chromedriver" false
    rfl).1

/-- The config fallback of _get_browser_name: the configured default
browser lowercased, or chrome when the registry read raises. -/
def config_default_browser (store : ConfigStore) : String :=
  match readconfig store "browser" "default_browser" with
  | .ok v => pyLower v
  | .error _ => "chrome"

/-- _get_browser_name (conftest.py): a truthy --browser-name CLI value is
lowercased and used; otherwise the configured default is read and
lowercased; when that read raises, chrome. -/
def get_browser_name (cliBrowser : Option String) (store : ConfigStore) :
    String :=
  match cliBrowser with
  | some s => if s = "" then config_default_browser store else pyLower s
  | none => config_default_browser store

/-- C8: the CLI flag, when supplied, decides the browser name over any
configured default; an absent flag falls back to the configured default
browser; and when neither is available the name is chrome. -/
theorem C8_browser_precedence (cli : Option String) (store : ConfigStore)
    (s v : String) :
    (cli = some s → s ≠ "" → get_browser_name cli store = pyLower s) ∧
    (cli = none → store "browser" "default_browser" = some v →
        get_browser_name cli store = pyLower v) ∧
    (cli = none → store "browser" "default_browser" = none →
        get_browser_name cli store = "chrome") := by
  refine ⟨?_, ?_, ?_⟩
  · intro hc hs
    subst hc
    simp [get_browser_name, hs]
  · intro hc hv
    subst hc
    simp [get_browser_name, config_default_browser, readconfig, hv]
  · intro hc hv
    subst hc
    simp [get_browser_name, config_default_browser, readconfig, hv]

/-- C8 witness: a supplied CLI value wins over the configured Firefox
default, the configured default is used when the flag is absent, and an
empty registry yields chrome. -/
theorem C8_browser_precedence_witness :
    get_browser_name (some "Chrome") sampleStore = pyLower "Chrome" ∧
    get_browser_name none sampleStore = pyLower "Firefox" ∧
    get_browser_name none (fun _ _ => none) = "chrome" :=
  ⟨(C8_browser_precedence (some "Chrome") sampleStore "Chrome" "").1
      rfl (by decide),
   (C8_browser_precedence none sampleStore "" "Firefox").2.1 rfl (by decide),
   (C8_browser_precedence none (fun _ _ => none) "" "").2.2 rfl rfl⟩

/-- Outcome of a test body: it returns normally or raises. -/
inductive TestOutcome where
  | passed
  | errored (msg : String)
deriving DecidableEq

/-- Observable effects of one run of the driver fixture, in order. -/
inductive FixtureEvent where
  | provisioned (d : Session)
  | bodyFinished (outcome : TestOutcome)
  | quitSession (d : Session)
deriving DecidableEq

/-- The driver fixture of conftest.py: resolves the browser name, provisions
the session, yields it to the test body and — since pytest resumes a yield
fixture for teardown regardless of the body's outcome — quits that same
session after the body finishes.  The result pairs the body's outcome with
the trace of effects in order. -/
def run_driver_fixture (env : DriverEnv) (cliBrowser : Option String)
    (headless : Bool) (store : ConfigStore) (body : Session → TestOutcome) :
    Except Err (TestOutcome × List FixtureEvent) :=
  match create_driver env (get_browser_name cliBrowser store) headless with
  | .error e => .error e
  | .ok webDriver =>
      .ok (body webDriver,
        [FixtureEvent.provisioned webDriver,
         FixtureEvent.bodyFinished (body webDriver),
         FixtureEvent.quitSession webDriver])

/-- C9: whenever provisioning succeeds, every run of the driver fixture —
whatever outcome the test body produces, normal return or raise — ends with
quitting the very session that was provisioned: the quit event follows the
body's completion and is the final event of the trace. -/
theorem C9_fixture_always_quits (env : DriverEnv) (cli : Option String)
    (headless : Bool) (store : ConfigStore) (body : Session → TestOutcome)
    (d : Session)
    (h : create_driver env (get_browser_name cli store) headless = .ok d) :
    run_driver_fixture env cli headless store body =
      .ok (body d,
        [FixtureEvent.provisioned d, FixtureEvent.bodyFinished (body d),
         FixtureEvent.quitSession d]) ∧
    (run_driver_fixture env cli headless store body).toOption.map
        (fun r => r.2.getLast?) =
      some (some (FixtureEvent.quitSession d)) := by
  constructor
  · simp [run_driver_fixture, h]
  · simp [run_driver_fixture, h, Except.toOption, List.getLast?]

/-- Session produced for chrome by the automatic tier, not headless. -/
def chromeSession : Session :=
  { browserName := "chrome", headless := false, execPath := none,
    maximized := true, opts := [] }

/-- C9 witness: a test body that raises still yields a trace whose final
event is quitting the provisioned chrome session. -/
theorem C9_fixture_always_quits_witness :
    run_driver_fixture envAutoOk (some "chrome") false sampleStore
        (fun _ => TestOutcome.errored "assertion failed") =
      .ok (TestOutcome.errored "assertion failed",
        [FixtureEvent.provisioned chromeSession,
         FixtureEvent.bodyFinished (TestOutcome.errored "assertion failed"),
         FixtureEvent.quitSession chromeSession]) :=
  (C9_fixture_always_quits envAutoOk (some "chrome") false sampleStore
    (fun _ => TestOutcome.errored "assertion failed") chromeSession
    (by decide)).1

/-- Log._get_logger (src/Utilities/Log.py) acting on the logging module's
state for the process-wide logger named AutomationFramework: when the logger
has no handlers, set it up and attach one file handler for today's dated log
file; otherwise leave the state alone.  Returns the logger's name (the
module hands back the same logger object for the same name) and the updated
handler list. -/
def Log_get_logger (date : String) (handlers : List String) :
    String × List String :=
  if handlers.isEmpty then
    ("AutomationFramework", handlers ++ ["Logs/log" ++ date ++ ".txt"])
  else
    ("AutomationFramework", handlers)

/-- Repeated calls of Log._get_logger, one per date observed at each call,
threaded through the logging module's handler state. -/
def get_logger_calls (dates : List String) (handlers : List String) :
    List String :=
  dates.foldl (fun hs d => (Log_get_logger d hs).2) handlers

/-- Once the logger has at least one handler, further calls never change the
handler state, whatever dates they observe. -/
theorem get_logger_calls_stable (dates : List String) :
    ∀ hs : List String, hs ≠ [] → get_logger_calls dates hs = hs := by
  induction dates with
  | nil =>
      intro hs _
      rfl
  | cons d ds ih =>
      intro hs h
      have hne : hs.isEmpty = false := by
        cases hs with
        | nil => exact absurd rfl h
        | cons a as => rfl
      have h2 : (Log_get_logger d hs).2 = hs := by
        simp [Log_get_logger, hne]
      calc get_logger_calls (d :: ds) hs
          = get_logger_calls ds ((Log_get_logger d hs).2) := by
            simp [get_logger_calls]
        _ = get_logger_calls ds hs := by rw [h2]
        _ = hs := ih hs h

/-- C10: logger construction is idempotent — starting from no handlers, the
first call attaches exactly one file handler and any number of further
calls leaves exactly that one handler, every call returns the logger of the
same name, and a call on an already-handled logger changes nothing. -/
theorem C10_logger_idempotent (d0 : String) (dates : List String)
    (hs : List String) (h : hs ≠ []) :
    (get_logger_calls (d0 :: dates) []).length = 1 ∧
    (Log_get_logger d0 []).2 = ["Logs/log" ++ d0 ++ ".txt"] ∧
    (Log_get_logger d0 hs).1 = "AutomationFramework" ∧
    (Log_get_logger d0 hs).2 = hs := by
  have hne : hs.isEmpty = false := by
    cases hs with
    | nil => exact absurd rfl h
    | cons a as => rfl
  refine ⟨?_, by simp [Log_get_logger], ?_, by simp [Log_get_logger, hne]⟩
  · have hstep : get_logger_calls (d0 :: dates) [] =
        get_logger_calls dates ["Logs/log" ++ d0 ++ ".txt"] := by
      simp [get_logger_calls, Log_get_logger]
    rw [hstep, get_logger_calls_stable dates _ (by simp)]
    rfl
  · unfold Log_get_logger
    rw [hne]
    simp

/-- C10 witness: two calls on consecutive days starting from no handlers
leave exactly one handler, and a call on a logger that already has one
returns the same name and the unchanged handler list. -/
theorem C10_logger_idempotent_witness :
    (get_logger_calls ["2026-10-12", "2026-10-13"] []).length = 1 ∧
    (Log_get_logger "2026-10-12" []).2 = ["Logs/log2026-10-12.txt"] ∧
    (Log_get_logger "2026-10-13" ["Logs/log2026-10-12.txt"]).1 =
      "AutomationFramework" ∧
    (Log_get_logger "2026-10-13" ["Logs/log2026-10-12.txt"]).2 =
      ["Logs/log2026-10-12.txt"] :=
  ⟨(C10_logger_idempotent "2026-10-12" ["2026-10-13"]
      ["Logs/log2026-10-12.txt"] (by decide)).1,
   (C10_logger_idempotent "2026-10-12" ["2026-10-13"]
      ["Logs/log2026-10-12.txt"] (by decide)).2.1,
   (C10_logger_idempotent "2026-10-13" []
      ["Logs/log2026-10-12.txt"] (by decide)).2.2.1,
   (C10_logger_idempotent "2026-10-13" []
      ["Logs/log2026-10-12.txt"] (by decide)).2.2.2⟩

end SelFw
